import Mathlib

/-!
Shallow embedding of the movies-req-bot repository (handlers.py, database.py,
utils.py, inline.py, main.py).  Strings are modelled as `List Char`; the
Python helpers used by the code (`str.replace`, `str.split`, `str.strip`,
`str.isdigit`, `str.lower`, truthiness of values) are given executable
list-level definitions mirroring their Python semantics on the inputs the
program feeds them.  The MongoDB collections are modelled as in-memory lists
with the unique indexes declared by `init_db`.
-/

namespace MoviesBot

/-- Characters Python's `str.strip()` removes (the ASCII whitespace set). -/
def isSpaceChar (c : Char) : Bool :=
  c = ' ' ∨ c = '\t' ∨ c = '\n' ∨ c = '\r' ∨ c = '\x0b' ∨ c = '\x0c'

/-- Python `str.strip()`: drop whitespace from both ends. -/
def pyStrip (l : List Char) : List Char :=
  ((l.dropWhile isSpaceChar).reverse.dropWhile isSpaceChar).reverse

/-- Python `str.lower()` (ASCII range, which is what the bot's keywords use). -/
def lowerStr (l : List Char) : List Char := l.map Char.toLower

/-- Python `str.isdigit()` on ASCII text: non-empty and all digits. -/
def pyIsDigit (l : List Char) : Bool := !l.isEmpty && l.all Char.isDigit

/-- Python `int(...)` applied to a string of digits. -/
def digitsToNat (l : List Char) : Nat :=
  l.foldl (fun n c => 10 * n + (c.toNat - '0'.toNat)) 0

/-- Decimal rendering of a natural, as `str(...)` produces for it. -/
def natChars (n : Nat) : List Char := (Nat.repr n).data

/-- Decimal rendering of an integer, as `str(...)` produces for it. -/
def intChars (i : Int) : List Char := (Int.repr i).data

/-- Does `pat` occur as a contiguous substring of `l`?  (Python's `in`.) -/
def containsSub (pat : List Char) : List Char → Bool
  | [] => pat.isPrefixOf ([] : List Char)
  | c :: rest => pat.isPrefixOf (c :: rest) || containsSub pat rest

/-- The pattern removed by `file_name.replace('.mkv', '')`. -/
def mkvL : List Char := ['.', 'm', 'k', 'v']

/-- Python `file_name.replace('.mkv', '')`: remove every (leftmost-first)
occurrence of `.mkv`. -/
def remove_mkv : List Char → List Char
  | [] => []
  | c :: rest =>
    if mkvL.isPrefixOf (c :: rest) then
      match rest with
      | _ :: _ :: _ :: rest3 => remove_mkv rest3
      | _ => []
    else c :: remove_mkv rest

/-- Python `s.split('_')`: split at every underscore, keeping empty pieces. -/
def split_underscore : List Char → List (List Char)
  | [] => [[]]
  | c :: rest =>
    if c = '_' then [] :: split_underscore rest
    else
      match split_underscore rest with
      | [] => [[c]]
      | s :: ss => (c :: s) :: ss

/-- Helper for whitespace splitting, carrying the current (reversed) word. -/
def splitWsAux : List Char → List Char → List (List Char)
  | [], acc => if acc.isEmpty then [] else [acc.reverse]
  | c :: rest, acc =>
    if isSpaceChar c then
      if acc.isEmpty then splitWsAux rest [] else acc.reverse :: splitWsAux rest []
    else splitWsAux rest (c :: acc)

/-- Python `s.split()` with no argument: split on whitespace runs, no empties. -/
def pySplitWs (l : List Char) : List (List Char) := splitWsAux l []

/-- Python `" ".join(parts)`. -/
def joinSpace : List (List Char) → List Char
  | [] => []
  | [t] => t
  | t :: rest => t ++ ' ' :: joinSpace rest

/-- Python `s.capitalize()` (ASCII): first character upper, rest lower. -/
def pyCapitalize : List Char → List Char
  | [] => []
  | c :: rest => c.toUpper :: lowerStr rest

/-- Python `a or b` for an optional string `a`: `b` unless `a` is a truthy
(non-`None`, non-empty) string. -/
def pyOrStr (a : Option (List Char)) (b : List Char) : List Char :=
  match a with
  | some s => if s.isEmpty then b else s
  | none => b

/-! ## Filename metadata extraction (handlers.py, inlined in
`handle_forwarded_message` and `batch_index`, lines 102-123 / 334-355) -/

/-- The metadata extracted from one MKV filename. -/
structure ParsedName where
  title : List Char
  year : Nat
  quality : List Char
  language : Option (List Char)
deriving DecidableEq, Repr

/-- Language detection: the `if 'tamil' in name_lower ... elif ... elif ...`
chain over the lowercased filename. -/
def detect_language (file_name : List Char) : Option (List Char) :=
  let name_lower := lowerStr file_name
  if containsSub "tamil".data name_lower then some "tamil".data
  else if containsSub "english".data name_lower then some "english".data
  else if containsSub "hindi".data name_lower then some "hindi".data
  else none

/-- The filename parsing block shared verbatim by `batch_index` (lines
102-123) and the single-pass branch of `handle_forwarded_message` (lines
334-355):
`clean_name = file_name.replace('.mkv', '').split('_')`,
`title = clean_name[0].replace('.', ' ').strip()`,
`year = int(clean_name[1]) if len(clean_name) > 1 and clean_name[1].isdigit() else 0`,
`quality = clean_name[2] if len(clean_name) > 2 else 'Unknown'`,
plus the language sniffing that precedes it. -/
def parse_mkv_name (file_name : List Char) : ParsedName :=
  let language := detect_language file_name
  let clean_name := split_underscore (remove_mkv file_name)
  let title := pyStrip ((clean_name.headD []).map fun c => if c = '.' then ' ' else c)
  let year :=
    match clean_name[1]? with
    | some s => if pyIsDigit s then digitsToNat s else 0
    | none => 0
  let quality := (clean_name[2]?).getD "Unknown".data
  ⟨title, year, quality, language⟩

/-! ## Persistence model (database.py)

`movies_collection` and `users_collection` are modelled as lists carrying the
unique indexes created by `init_db`: `(file_id, message_id)` for movies and
`chat_id` for users.  Mongo's generated `ObjectId` is modelled by a counter. -/

/-- The movie document built by the indexing handlers (the `movie_doc` dict). -/
structure MovieInsert where
  title : List Char
  year : Nat
  quality : List Char
  file_size : List Char
  file_id : List Char
  message_id : Int
  channel_id : Option (List Char)
  language : Option (List Char)
deriving DecidableEq, Repr

/-- A stored movie record: the inserted document plus its generated id. -/
structure MovieDoc extends MovieInsert where
  oid : Nat
deriving DecidableEq, Repr

/-- The `movies` collection with its id counter. -/
structure MovieStore where
  docs : List MovieDoc
  nextId : Nat
deriving DecidableEq, Repr

/-- A `users` collection record (chat_id, thumbnail_file_id, prefix, caption).
The prefix field is named `pfx` in this embedding. -/
structure UserRec where
  chat_id : Int
  thumbnail_file_id : Option (List Char)
  pfx : Option (List Char)
  caption : Option (List Char)
deriving DecidableEq, Repr

/-- Model of `users_collection.find_one` keyed by `chat_id`. -/
def find_user (users : List UserRec) (cid : Int) : Option UserRec :=
  users.find? fun u => u.chat_id == cid

/-- The default settings written by `add_user`'s `$setOnInsert`. -/
def defaultUser (cid : Int) : UserRec := ⟨cid, none, none, none⟩

/-- Function `add_user` (database.py lines 36-57): an upsert whose update document is
`$setOnInsert` only, so it inserts the defaults when `chat_id` is absent and
changes nothing when it is present. -/
def add_user (users : List UserRec) (cid : Int) : List UserRec :=
  match find_user users cid with
  | some _ => users
  | none => users ++ [defaultUser cid]

/-- Function `get_user_settings` (database.py lines 89-105): returns the stored
`(thumbnail_file_id, prefix, caption)`; when the user is unknown it calls
`add_user` and returns `(None, None, None)`. -/
def get_user_settings (users : List UserRec) (cid : Int) :
    (Option (List Char) × Option (List Char) × Option (List Char)) × List UserRec :=
  match find_user users cid with
  | none => ((none, none, none), add_user users cid)
  | some u => ((u.thumbnail_file_id, u.pfx, u.caption), users)

/-- Python truthiness of the optional `language` argument followed by
`language.lower()`, as `add_movie` applies it. -/
def normLang (language : Option (List Char)) : Option (List Char) :=
  match language with
  | some l => if l.isEmpty then none else some (lowerStr l)
  | none => none

/-- One `insert_one` against the unique `(file_id, message_id)` index:
`none` models the `DuplicateKeyError` path (record skipped). -/
def insertOne (st : MovieStore) (ins : MovieInsert) : Option Nat × MovieStore :=
  if st.docs.any (fun d => d.file_id == ins.file_id && d.message_id == ins.message_id) then
    (none, st)
  else
    (some st.nextId, ⟨st.docs ++ [⟨ins, st.nextId⟩], st.nextId + 1⟩)

/-- Function `add_movie` (database.py lines 110-150): validates its arguments, builds
`movie_doc` (adding `language.lower()` only when truthy) and inserts it,
returning the new id, or `none` on a duplicate key.  `.error` models the
re-raised `ValueError` for an empty `file_id` or `title`. -/
def add_movie (st : MovieStore) (title : List Char) (year : Nat) (quality : List Char)
    (file_size : List Char) (file_id : List Char) (message_id : Int)
    (language : Option (List Char)) (channel_id : Option (List Char)) :
    Except Unit (Option Nat × MovieStore) :=
  if file_id.isEmpty || title.isEmpty then .error ()
  else .ok (insertOne st ⟨title, year, quality, file_size, file_id, message_id,
    channel_id, normLang language⟩)

/-- Modelled from the spec: `add_movies_batch` is imported by handlers.py but
its definition is missing from the repository sources.  The spec describes
indexing as inserting discovered movie files into the catalog store with
duplicates skipped and counted, so it is modelled as inserting each record of
the batch in order unless its `(file_id, message_id)` key is already present,
returning the ids of the newly inserted records. -/
def add_movies_batch (st : MovieStore) (batch : List MovieInsert) :
    List Nat × MovieStore :=
  batch.foldl
    (fun acc ins =>
      match insertOne acc.2 ins with
      | (some i, st') => (acc.1 ++ [i], st')
      | (none, st') => (acc.1, st'))
    ([], st)

/-- Modelled from the spec: `get_movie_by_id` is imported from the database
module by utils.py and handlers.py but absent from the sources; the spec's
glossary describes the catalog record as retrievable by identifier, so it is
modelled as the lookup of a stored record by its id. -/
def get_movie_by_id (st : MovieStore) (i : Nat) : Option MovieDoc :=
  st.docs.find? fun d => d.oid == i

/-! ## Search over the store (database.py `search_movies`, lines 152-195) -/

/-- The 8-tuple `search_movies` builds for each matching record. -/
structure MovieTup where
  oid : Nat
  title : List Char
  year : Nat
  quality : List Char
  file_size : List Char
  file_id : List Char
  message_id : Int
  channel_id : List Char
deriving DecidableEq, Repr

/-- Tuple construction, including the
`r.get("channel_id", "-1002559398614")` default. -/
def doc_tuple (d : MovieDoc) : MovieTup :=
  ⟨d.oid, d.title, d.year, d.quality, d.file_size, d.file_id, d.message_id,
    d.channel_id.getD "-1002559398614".data⟩

/-- Python truthiness of the `year` argument (`if year:`): `0` and `None`
both leave the year condition out of the query. -/
def year_filter : Option Nat → Option Nat
  | some n => if n = 0 then none else some n
  | none => none

/-- Python truthiness of the `language` argument plus `language.lower()`. -/
def lang_filter : Option (List Char) → Option (List Char)
  | some l => if l.isEmpty then none else some (lowerStr l)
  | none => none

/-- One record against the Mongo query `search_movies` builds.  The
`$text`/`$search` clause quotes every whitespace-separated term of
`movie_name` as a phrase, which the text index satisfies only when every
phrase occurs in the indexed `title`; it is modelled as case-insensitive
substring occurrence of each term.  The `year` and `language` clauses are
exact field matches. -/
def match_query (movie_name : List Char) (yearF : Option Nat)
    (langF : Option (List Char)) (d : MovieDoc) : Bool :=
  (pySplitWs movie_name).all (fun t => containsSub (lowerStr t) (lowerStr d.title))
    && (match yearF with
        | some y => d.year == y
        | none => true)
    && (match langF with
        | some l => d.language == some l
        | none => true)

/-- Model of `movies_collection.find(query).limit(50)` followed by the tuple
comprehension. -/
def find_tuples (st : MovieStore) (movie_name : List Char) (yearF : Option Nat)
    (langF : Option (List Char)) : List MovieTup :=
  ((st.docs.filter (match_query movie_name yearF langF)).take 50).map doc_tuple

/-- Function `search_movies` (database.py lines 152-195): raises on an empty
`movie_name` (modelled by `.error`), runs the primary query with all truthy
filters, and when that returns nothing while a year was given, re-runs the
same query with the year condition popped. -/
def search_movies (st : MovieStore) (movie_name : List Char) (year : Option Nat)
    (language : Option (List Char)) : Except Unit (List MovieTup) :=
  if movie_name.isEmpty then .error ()
  else
    let yearF := year_filter year
    let langF := lang_filter language
    let movies := find_tuples st movie_name yearF langF
    if movies.isEmpty && yearF.isSome then
      .ok (find_tuples st movie_name none langF)
    else .ok movies

/-! ## Text search handler (handlers.py `search_movie`, lines 434-524).
The rate-limiting gate (lines 440-447) compares wall-clock times of repeated
identical queries; the model covers the handler's behaviour once that gate
has been passed. -/

/-- Python `list.remove(x)`: delete the first element equal to `x`. -/
def removeFirst (x : List Char) : List (List Char) → List (List Char)
  | [] => []
  | y :: rest => if y = x then rest else y :: removeFirst x rest

/-- The year test of the extraction loop: `term.isdigit() and len(term) == 4`. -/
def is_year_term (t : List Char) : Bool := pyIsDigit t && t.length == 4

/-- The language keywords of `search_movie`. -/
def language_terms : List (List Char) := ["tamil".data, "english".data, "hindi".data]

/-- The language test: `term.lower() in language_terms`. -/
def is_lang_term (t : List Char) : Bool := language_terms.contains (lowerStr t)

/-- The year extraction loop: iterate a copy of the terms, and at the first
term that is all digits and 4 long, record `int(term)`, remove the first
occurrence of that term from the live list, and break. -/
def extract_year (terms : List (List Char)) : Option Nat × List (List Char) :=
  match terms.find? is_year_term with
  | some t => (some (digitsToNat t), removeFirst t terms)
  | none => (none, terms)

/-- The language extraction loop: iterate `copy` (a snapshot), and at every
term whose lowercase is a language keyword, set the language to that
lowercase and remove the term's first occurrence from the `live` list; the
last matching term's lowercase wins. -/
def extract_language : List (List Char) → List (List Char) →
    Option (List Char) × List (List Char)
  | [], live => (none, live)
  | t :: rest, live =>
    if is_lang_term t then
      let r := extract_language rest (removeFirst t live)
      (some (r.1.getD (lowerStr t)), r.2)
    else extract_language rest live

/-- The result header
`f"Search Query: {query}  TOTAL RESULTS: {n}\n\n🔻 Tap on ... 🔻\n\n"`. -/
def mk_header (query : List Char) (n : Nat) : List Char :=
  "Search Query: ".data ++ query ++ "  TOTAL RESULTS: ".data ++ natChars n
    ++ "\n\n🔻 Tap on the file button and then start to download. 🔻\n\n".data

/-- One result line: the handler re-reads the record by id for its stored
language, falls back to the query language then `''`, renders the year only
when non-zero, and strips the assembled
`f"[{file_size}] {title} {year_str} {language_str} {quality}"`. -/
def mk_result_line (st : MovieStore) (language : Option (List Char))
    (m : MovieTup) : List Char :=
  let movie_language :=
    match get_movie_by_id st m.oid with
    | some d => (d.language).getD []
    | none => []
  let language_str :=
    if movie_language.isEmpty then (language.getD []) else movie_language
  let year_str := if m.year = 0 then [] else natChars m.year
  pyStrip ("[".data ++ m.file_size ++ "] ".data ++ m.title ++ " ".data
    ++ year_str ++ " ".data ++ language_str ++ " ".data ++ m.quality)

/-- One interactive button: label is the result line, callback data is
`f"download_{movie_id}"`. -/
def mk_button (st : MovieStore) (language : Option (List Char))
    (m : MovieTup) : List Char × List Char :=
  (mk_result_line st language m, "download_".data ++ natChars m.oid)

/-- The handler's visible outcomes after the rate-limit gate. -/
inductive SearchResponse where
  | emptyPrompt
  | errorReply
  | noResults
  | results (header : List Char) (lines : List (List Char))
      (buttons : List (List Char × List Char))
deriving DecidableEq, Repr

/-- The rendering step (lines 484-516): "No movies found" on an empty list,
otherwise the header, one line and one button per returned record. -/
def present_results (st : MovieStore) (query : List Char)
    (language : Option (List Char)) (movies : List MovieTup) : SearchResponse :=
  if movies.isEmpty then .noResults
  else .results (mk_header query movies.length)
    (movies.map (mk_result_line st language))
    (movies.map (mk_button st language))

/-- The store interaction of `search_movie` (lines 477-516): the primary
`search_movies` call, the handler-level retry without the year when the
result is empty and a truthy year was given, then rendering; any raised
error is answered with "Error occurred. Please try again later.". -/
def run_store_query (st : MovieStore) (query movie_name : List Char)
    (year : Option Nat) (language : Option (List Char)) : SearchResponse :=
  match search_movies st movie_name year language with
  | .error _ => .errorReply
  | .ok movies0 =>
    if movies0.isEmpty && (year_filter year).isSome then
      match search_movies st movie_name none language with
      | .error _ => .errorReply
      | .ok movies1 => present_results st query language movies1
    else present_results st query language movies0

/-- Handler `search_movie` (handlers.py lines 434-524) after the rate-limit gate:
strip the text, prompt on empty, split into terms, run the year and language
extraction loops, join the rest with spaces into the movie name, and query
the store. -/
def search_movie (st : MovieStore) (text : List Char) : SearchResponse :=
  let query := pyStrip text
  if query.isEmpty then .emptyPrompt
  else
    let search_terms := pySplitWs query
    let (year, terms1) := extract_year search_terms
    let (language, terms2) := extract_language terms1 terms1
    run_store_query st query (joinSpace terms2) year language

/-- The first term that is all digits and exactly 4 characters long, as a
year (the claim's description of the year filter). -/
def spec_year (terms : List (List Char)) : Option Nat :=
  (terms.find? is_year_term).map digitsToNat

/-- The terms left after erasing that first year term (the claim's
description). -/
def spec_after_year (terms : List (List Char)) : List (List Char) :=
  terms.eraseP is_year_term

/-- The lowercase of the last term matching a language keyword (the language
filter the code ends up with). -/
def spec_language : List (List Char) → Option (List Char)
  | [] => none
  | t :: rest =>
    match spec_language rest with
    | some l => some l
    | none => if is_lang_term t then some (lowerStr t) else none

/-- The terms left after removing every language keyword (the claim's
description of the remaining movie-name terms). -/
def spec_remaining (terms : List (List Char)) : List (List Char) :=
  terms.filter fun t => !is_lang_term t

/-! ## Channel indexing (handlers.py `batch_index` lines 64-179 and the
single-pass branch of `handle_forwarded_message`, lines 306-402). -/

/-- The Telethon document attached to a channel message (the fields the
handlers read).  `file_name` stands for `document.attributes[-1].file_name`. -/
structure TLDoc where
  mime_type : List Char
  file_name : List Char
  docId : Int
  access_hash : Int
  size : Nat
deriving DecidableEq, Repr

/-- A fetched channel message: its id and optional document. -/
structure TLMessage where
  msgId : Int
  document : Option TLDoc
deriving DecidableEq, Repr

/-- The filter `msg.document and msg.document.mime_type == 'video/x-matroska'`. -/
def isMkvMsg (m : TLMessage) : Bool :=
  match m.document with
  | none => false
  | some d => d.mime_type == "video/x-matroska".data

/-- Two decimal digits with a leading zero, for the size rendering. -/
def pad2 (n : Nat) : List Char :=
  if n < 10 then '0' :: natChars n else natChars n

/-- Size rendering `f"{size/2**30:.2f}GB"` / `f"{size/2**20:.2f}MB"`.  The quotient is
computed in hundredths rounded half-up; this abstracts the floating-point
`.2f` formatting of the source, whose binary rounding can differ in the last
hundredth.  No claim depends on the rendered digits. -/
def formatSize (size : Nat) : List Char :=
  let gib : Nat := 1024 * 1024 * 1024
  let mib : Nat := 1024 * 1024
  if size ≥ gib then
    let centi := (2 * size * 100 + gib) / (2 * gib)
    natChars (centi / 100) ++ '.' :: pad2 (centi % 100) ++ "GB".data
  else
    let centi := (2 * size * 100 + mib) / (2 * mib)
    natChars (centi / 100) ++ '.' :: pad2 (centi % 100) ++ "MB".data

/-- Composite id `f"{msg.document.id}:{msg.document.access_hash}"`. -/
def telethon_file_id (d : TLDoc) : List Char :=
  intChars d.docId ++ ':' :: intChars d.access_hash

/-- The `movie_doc` dict both indexing modes build from an MKV message
(title/year/quality parsed from the filename, formatted size, composite
file id, message id, channel id, optional language). -/
def msg_insert (channel : List Char) (m : TLMessage) (d : TLDoc) : MovieInsert :=
  let p := parse_mkv_name d.file_name
  ⟨p.title, p.year, p.quality, formatSize d.size, telethon_file_id d,
    m.msgId, some channel, normLang p.language⟩

/-- The five counters the indexing loops report. -/
structure IndexCounters where
  current : Nat
  total_files : Nat
  duplicate : Nat
  unsupported : Nat
  errors : Nat
deriving DecidableEq, Repr

/-- One message of the single-pass loop: count it, skip non-MKV messages as
unsupported, otherwise parse and `add_movie`, counting an insert, a skipped
duplicate, or a parse/validation error. -/
def single_step (channel : List Char) (acc : IndexCounters × MovieStore)
    (m : TLMessage) : IndexCounters × MovieStore :=
  let c := { acc.1 with current := acc.1.current + 1 }
  let st := acc.2
  match m.document with
  | none => ({ c with unsupported := c.unsupported + 1 }, st)
  | some d =>
    if d.mime_type == "video/x-matroska".data then
      let ins := msg_insert channel m d
      match add_movie st ins.title ins.year ins.quality ins.file_size ins.file_id
          ins.message_id (parse_mkv_name d.file_name).language (some channel) with
      | .error _ => ({ c with errors := c.errors + 1 }, st)
      | .ok (some _, st') => ({ c with total_files := c.total_files + 1 }, st')
      | .ok (none, st') => ({ c with duplicate := c.duplicate + 1 }, st')
    else ({ c with unsupported := c.unsupported + 1 }, st)

/-- The single-pass indexing loop over the fetched messages. -/
def single_index (channel : List Char) (msgs : List TLMessage)
    (st : MovieStore) : IndexCounters × MovieStore :=
  msgs.foldl (single_step channel) (⟨0, 0, 0, 0, 0⟩, st)

/-- In-flight state of `batch_index`: counters, the pending `movie_batch`,
and the store. -/
structure BatchSt where
  counters : IndexCounters
  buffer : List MovieInsert
  store : MovieStore
deriving DecidableEq, Repr

/-- Flush `movie_batch` through `add_movies_batch`, crediting
`total_files` with the inserted count and `duplicate` with
`flushed_size - inserted` (the code uses `batch_size` at a full-buffer flush,
which equals the buffer length there, and `len(movie_batch)` at the end). -/
def flush_batch (s : BatchSt) : BatchSt :=
  let r := add_movies_batch s.store s.buffer
  { counters :=
      { s.counters with
        total_files := s.counters.total_files + r.1.length
        duplicate := s.counters.duplicate + (s.buffer.length - r.1.length) }
    buffer := []
    store := r.2 }

/-- State of `batch_index` after an MKV message is counted and its parsed
document appended to `movie_batch`. -/
def batch_mkv_state (channel : List Char) (s : BatchSt) (m : TLMessage)
    (d : TLDoc) : BatchSt :=
  { counters := { s.counters with current := s.counters.current + 1 }
    buffer := s.buffer ++ [msg_insert channel m d]
    store := s.store }

/-- State of `batch_index` after a non-MKV message is counted and skipped
as unsupported. -/
def batch_skip_state (s : BatchSt) : BatchSt :=
  { s with counters :=
      { s.counters with
        current := s.counters.current + 1
        unsupported := s.counters.unsupported + 1 } }

/-- One message of `batch_index`: count it, skip non-MKV as unsupported,
otherwise append the parsed document to `movie_batch` and flush when the
batch reaches `batch_size = 100`. -/
def batch_step (channel : List Char) (s : BatchSt) (m : TLMessage) : BatchSt :=
  match m.document with
  | none => batch_skip_state s
  | some d =>
    if d.mime_type == "video/x-matroska".data then
      if (batch_mkv_state channel s m d).buffer.length ≥ 100 then
        flush_batch (batch_mkv_state channel s m d)
      else batch_mkv_state channel s m d
    else batch_skip_state s

/-- After the message loop, `batch_index` flushes the remaining
`movie_batch` when it is non-empty. -/
def batch_final (s : BatchSt) : BatchSt :=
  if s.buffer.isEmpty then s else flush_batch s

/-- Function `batch_index` (handlers.py lines 64-179): fold the messages through
`batch_step`, then flush any remaining buffered movies. -/
def batch_index (channel : List Char) (msgs : List TLMessage)
    (st : MovieStore) : IndexCounters × MovieStore :=
  ((batch_final (msgs.foldl (batch_step channel) ⟨⟨0, 0, 0, 0, 0⟩, [], st⟩)).counters,
   (batch_final (msgs.foldl (batch_step channel) ⟨⟨0, 0, 0, 0, 0⟩, [], st⟩)).store)

/-- The final report text (handlers.py lines 389-396). -/
def final_report (mode channel : List Char) (c : IndexCounters) : List Char :=
  "✅ ".data ++ pyCapitalize mode ++ " indexing completed for channel ".data
    ++ channel ++ ".\n• Total messages processed: ".data ++ natChars c.current
    ++ "\n• Movies indexed: ".data ++ natChars c.total_files
    ++ "\n• Duplicates skipped: ".data ++ natChars c.duplicate
    ++ "\n• Unsupported files: ".data ++ natChars c.unsupported
    ++ "\n• Errors occurred: ".data ++ natChars c.errors

/-- The in-progress text `batch_index` edits at each batch start
(lines 85-91). -/
def batch_progress_report (batch_number : Nat) (c : IndexCounters) : List Char :=
  "Batch ".data ++ natChars batch_number ++ " in progress...\nMessages processed: ".data
    ++ natChars c.current ++ "\nMovies indexed: ".data ++ natChars c.total_files
    ++ "\nDuplicates skipped: ".data ++ natChars c.duplicate
    ++ "\nUnsupported skipped: ".data ++ natChars c.unsupported

/-- The in-progress text of the single-pass loop (lines 318-324). -/
def single_progress_report (c : IndexCounters) : List Char :=
  "Single-pass indexing in progress...\nMessages processed: ".data
    ++ natChars c.current ++ "\nMovies indexed: ".data ++ natChars c.total_files
    ++ "\nDuplicates skipped: ".data ++ natChars c.duplicate
    ++ "\nUnsupported skipped: ".data ++ natChars c.unsupported

/-! ## The forwarded-message handler (handlers.py `handle_forwarded_message`,
lines 181-432).  The Telegram update, conversation state and admin list are
gathered into an environment record; the handler is the decision chain the
code runs over them. -/

/-- The inputs `handle_forwarded_message` inspects. -/
structure ForwardEnv where
  chat_id : Int
  is_cancel : Bool
  indexing : Bool
  index_mode : Option (List Char)
  text : List Char
  forward_date : Bool
  forward_chat : Option (Int × Bool)
  msg_chat_id : Int
  admins : List Int
  bot_id : Int
  env_ok : Bool
  messages : List TLMessage
deriving Repr

/-- The handler's reply outcomes. -/
inductive ForwardResponse where
  | cancelled
  | ignored
  | mode_set (mode : List Char)
  | mode_invalid
  | not_forwarded
  | not_channel
  | invalid_channel
  | bot_not_admin
  | user_not_admin
  | config_error
  | completed (report : List Char)
deriving DecidableEq, Repr

/-- Channel resolution (lines 227-239): `forward_from_chat` of type channel,
else the chat id when its decimal form starts with `-100`. -/
def resolve_channel (env : ForwardEnv) : Option (List Char) :=
  match env.forward_chat with
  | some (cid, true) => some (intChars cid)
  | _ =>
    if "-100".data.isPrefixOf (intChars env.msg_chat_id) then
      some (intChars env.msg_chat_id)
    else none

/-- Handler `handle_forwarded_message`: the cancel callback, the indexing flag, the
mode selection, the forwarded-from-a-channel checks, the bot-admin and
user-admin checks, the environment-variable check, then the chosen indexing
run and its final report.  Every refusal path leaves the store unchanged. -/
def handle_forwarded_message (env : ForwardEnv) (st : MovieStore) :
    ForwardResponse × MovieStore :=
  if env.is_cancel then (.cancelled, st)
  else if !env.indexing then (.ignored, st)
  else
    match env.index_mode with
    | none =>
      if lowerStr env.text = "batch".data ∨ lowerStr env.text = "single".data then
        (.mode_set (lowerStr env.text), st)
      else (.mode_invalid, st)
    | some mode =>
      if !env.forward_date then (.not_forwarded, st)
      else
        match resolve_channel env with
        | none => (.not_channel, st)
        | some ch =>
          if !("-100".data.isPrefixOf ch) then (.invalid_channel, st)
          else if !(env.admins.contains env.bot_id) then (.bot_not_admin, st)
          else if !(env.admins.contains env.chat_id) then (.user_not_admin, st)
          else if !env.env_ok then (.config_error, st)
          else
            let (c, st') :=
              if mode = "batch".data then batch_index ch env.messages st
              else single_index ch env.messages st
            (.completed (final_report mode ch c), st')

/-! ## File delivery (utils.py `process_file`, lines 78-206). -/

/-- Outcome of one Bot-API download attempt (`bot.get_file` +
`download_to_path`): success, the two `BadRequest` texts the code sniffs,
another `BadRequest`, a network/Telegram error, or an unexpected error. -/
inductive AttemptResult where
  | ok
  | tooBig
  | wrongId
  | badRequest
  | netErr
  | unexpected
deriving DecidableEq, Repr

/-- How the retry loop (lines 93-121) ends: with a downloaded file, falling
through to the Telethon path, or with a raised exception. -/
inductive BotLoopOutcome where
  | gotFile
  | fellThrough
  | raised
deriving DecidableEq, Repr

/-- The `for attempt in range(max_retries)` loop with `max_retries = 3`:
"File is too big" / "Wrong file identifier" retries and falls through on the
last attempt; other `BadRequest` and network errors retry and re-raise on
the last attempt; anything else raises at once. -/
def bot_download_loop (att : Nat → AttemptResult) : Nat → Nat → BotLoopOutcome
  | 0, _ => .raised
  | fuel + 1, i =>
    match att i with
    | .ok => .gotFile
    | .tooBig => if i = 2 then .fellThrough else bot_download_loop att fuel (i + 1)
    | .wrongId => if i = 2 then .fellThrough else bot_download_loop att fuel (i + 1)
    | .badRequest => if i = 2 then .raised else bot_download_loop att fuel (i + 1)
    | .netErr => if i = 2 then .raised else bot_download_loop att fuel (i + 1)
    | .unexpected => .raised

/-- Which client supplied the sent document. -/
inductive FileSource where
  | botApi
  | telethon (channel : List Char) (message_id : Int)
deriving DecidableEq, Repr

/-- Result of `process_file`: the sent document (destination chat, source of
the bytes, caption, whether the user's optimized thumbnail was attached,
reply target), or `False` after any raised error. -/
inductive PFResult where
  | sent (chat : Int) (source : FileSource) (caption : List Char)
      (thumb_attached : Bool) (reply_to : Int)
  | failed
deriving DecidableEq, Repr

/-- The caption `process_file` builds:
`caption or f"{prefix or ''} {title} [{quality}]".strip()`. -/
def caption_text (pfx caption : Option (List Char)) (title quality : List Char) :
    List Char :=
  pyOrStr caption
    (pyStrip ((pfx.getD []) ++ ' ' :: title ++ " [".data ++ quality ++ "]".data))

/-- The environment `process_file` runs against: the users and movies
collections, the call arguments, and the outcomes of the external calls
(per-attempt Bot-API results, Telethon availability, whether the Telethon
fetch+download of a given channel/message succeeds, whether the thumbnail
download succeeds). -/
structure PFEnv where
  users : List UserRec
  store : MovieStore
  chat_id : Int
  file_id : List Char
  title : List Char
  quality : List Char
  file_size : List Char
  reply_to : Int
  movie_id : Nat
  attempts : Nat → AttemptResult
  telethon_available : Bool
  telethon_ok : List Char → Int → Bool
  thumb_ok : Bool

/-- Function `process_file` (utils.py lines 78-206): read the user's settings and
build the caption; run the Bot-API retry loop; on fall-through, look the
record up and re-download via Telethon using its `channel_id`/`message_id`
(raising when the record or those fields are missing or falsy, or when no
Telethon client is configured); then download+optimize the user's thumbnail
when one is set (errors just drop it) and send the document to the
requesting chat. -/
def process_file (env : PFEnv) : PFResult :=
  let settings := (get_user_settings env.users env.chat_id).1
  let cap := caption_text settings.2.1 settings.2.2 env.title env.quality
  let attach :=
    match settings.1 with
    | some tid => !tid.isEmpty && env.thumb_ok
    | none => false
  match bot_download_loop env.attempts 3 0 with
  | .gotFile => .sent env.chat_id .botApi cap attach env.reply_to
  | .raised => .failed
  | .fellThrough =>
    if env.telethon_available then
      match get_movie_by_id env.store env.movie_id with
      | none => .failed
      | some movie =>
        match movie.channel_id with
        | none => .failed
        | some ch =>
          if ch.isEmpty then .failed
          else if movie.message_id = 0 then .failed
          else if env.telethon_ok ch movie.message_id then
            .sent env.chat_id (.telethon ch movie.message_id) cap attach env.reply_to
          else .failed
    else .failed

/-! ## Database start-up (database.py lines 13-22). -/

/-- Whether `MongoClient(MONGO_URI)` and the collection handles come up, or
a `PyMongoError` is thrown. -/
inductive ConnOutcome where
  | connected
  | pymongo_error
deriving DecidableEq, Repr

/-- The kind of store serving the persistence operations. -/
inductive Backend where
  | document_db
  | relational
deriving DecidableEq, Repr

/-- How module import ends: with a served backend, or with the exception
re-raised. -/
inductive DbInit where
  | ok (b : Backend)
  | raised
deriving DecidableEq, Repr

/-- database.py lines 15-22: `try: client = MongoClient(MONGO_URI); ...`
binds the document-database collections; `except PyMongoError: ... raise`
re-raises.  No branch constructs any other store. -/
def database_startup : ConnOutcome → DbInit
  | .connected => .ok .document_db
  | .pymongo_error => .raised

/-! ## Lemmas about the string helpers -/

theorem isPrefixOf_append_self (l t : List Char) : l.isPrefixOf (l ++ t) = true :=
  List.isPrefixOf_iff_prefix.mpr (List.prefix_append l t)

theorem containsSub_iff (pat s : List Char) :
    containsSub pat s = true ↔ ∃ u v, s = u ++ v ∧ pat.isPrefixOf v = true := by
  induction s with
  | nil =>
    simp only [containsSub]
    constructor
    · intro h; exact ⟨[], [], rfl, h⟩
    · rintro ⟨u, v, huv, hp⟩
      obtain ⟨hu, hv⟩ := List.append_eq_nil.mp huv.symm
      rw [hv] at hp; exact hp
  | cons c rest ih =>
    simp only [containsSub, Bool.or_eq_true]
    constructor
    · rintro (h | h)
      · exact ⟨[], c :: rest, rfl, h⟩
      · obtain ⟨u, v, huv, hp⟩ := ih.mp h
        exact ⟨c :: u, v, by rw [huv]; rfl, hp⟩
    · rintro ⟨u, v, huv, hp⟩
      match u, huv with
      | [], huv =>
        exact Or.inl (by rw [List.nil_append] at huv; rw [← huv] at hp; exact hp)
      | c' :: u', huv =>
        have : rest = u' ++ v := by injection huv with h1 h2
        exact Or.inr (ih.mpr ⟨u', v, this, hp⟩)

theorem containsSub_middle (pat a b : List Char) :
    containsSub pat (a ++ (pat ++ b)) = true :=
  (containsSub_iff pat _).mpr ⟨a, pat ++ b, rfl, isPrefixOf_append_self pat b⟩

theorem remove_mkv_cons_of_neg (c : Char) (rest : List Char)
    (h : mkvL.isPrefixOf (c :: rest) = false) :
    remove_mkv (c :: rest) = c :: remove_mkv rest := by
  rw [remove_mkv.eq_def]
  split
  · rename_i hx; exact absurd hx (by simp)
  · rename_i c2 rest2 heq
    injection heq with h1 h2
    subst h1; subst h2
    rw [h]
    rfl

/-- Key step for `remove_mkv`: `.mkv` cannot begin strictly inside the final
extension, so if no suffix of `s` starts an occurrence, appending `.mkv`
and removing all occurrences gives back `s`. -/
theorem remove_mkv_append (s : List Char)
    (h : ∀ u v, s = u ++ v → v ≠ [] → mkvL.isPrefixOf (v ++ mkvL) = false) :
    remove_mkv (s ++ mkvL) = s := by
  induction s with
  | nil => rfl
  | cons c s ih =>
    have hne : mkvL.isPrefixOf ((c :: s) ++ mkvL) = false :=
      h [] (c :: s) rfl (by simp)
    have step : remove_mkv ((c :: s) ++ mkvL) = c :: remove_mkv (s ++ mkvL) := by
      simp only [List.cons_append] at hne ⊢
      exact remove_mkv_cons_of_neg c (s ++ mkvL) hne
    rw [step, ih]
    intro u v hs hv
    exact h (c :: u) v (by rw [hs]; rfl) hv

/-- No suffix of a string that does not contain `.mkv` can start an
occurrence of `.mkv` that spills into an appended `.mkv`: an overlap of
length 1-3 would force `'.'` into positions 1-3 of `.mkv`. -/
theorem no_overlap_of_not_contains (s : List Char)
    (hc : containsSub mkvL s = false) :
    ∀ u v, s = u ++ v → v ≠ [] → mkvL.isPrefixOf (v ++ mkvL) = false := by
  intro u v hs hv
  by_contra hne
  have hpre : mkvL <+: v ++ mkvL :=
    List.isPrefixOf_iff_prefix.mp (Bool.not_eq_false _ |>.mp hne)
  by_cases hlen : 4 ≤ v.length
  · have hmv : mkvL <+: v :=
      List.prefix_of_prefix_length_le hpre (List.prefix_append v mkvL) (by simpa using hlen)
    have : containsSub mkvL s = true :=
      (containsSub_iff mkvL s).mpr ⟨u, v, hs, List.isPrefixOf_iff_prefix.mpr hmv⟩
    rw [this] at hc; exact Bool.true_eq_false.mp hc
  · push_neg at hlen
    have hvpos : 0 < v.length := List.length_pos.mpr hv
    obtain ⟨t, ht⟩ := hpre
    have h1 : (v ++ mkvL).get? v.length = some '.' := by
      rw [List.get?_append_right (le_refl v.length)]
      simp [mkvL]
    have h2 : (v ++ mkvL).get? v.length = mkvL.get? v.length := by
      rw [← ht]
      exact List.get?_append (by simpa [mkvL] using hlen)
    rw [h1] at h2
    interval_cases hk : v.length <;> simp [mkvL] at h2

theorem remove_mkv_of_not_contains (s : List Char)
    (hc : containsSub mkvL s = false) : remove_mkv (s ++ mkvL) = s :=
  remove_mkv_append s (no_overlap_of_not_contains s hc)

theorem split_underscore_no_underscore (q : List Char) (hq : '_' ∉ q) :
    split_underscore q = [q] := by
  induction q with
  | nil => rfl
  | cons c q ih =>
    have hc : c ≠ '_' := fun h => hq (h ▸ List.mem_cons_self c q)
    have hq' : '_' ∉ q := fun h => hq (List.mem_cons_of_mem c h)
    rw [split_underscore, if_neg hc, ih hq']

theorem split_underscore_append (t r : List Char) (ht : '_' ∉ t) :
    split_underscore (t ++ '_' :: r) = t :: split_underscore r := by
  induction t with
  | nil =>
    show split_underscore ('_' :: r) = [] :: split_underscore r
    rw [split_underscore, if_pos rfl]
  | cons c t ih =>
    have hc : c ≠ '_' := fun h => ht (h ▸ List.mem_cons_self c t)
    have ht' : '_' ∉ t := fun h => ht (List.mem_cons_of_mem c h)
    show split_underscore (c :: (t ++ '_' :: r)) = (c :: t) :: split_underscore r
    rw [split_underscore, if_neg hc, ih ht']

/-! ## C1: filename parsing under the naming convention -/

/-- C1: For every MKV filename following the fixed delimiter convention
`Title_Year_Quality.mkv` (segments free of underscores, stem free of an
embedded `.mkv`), the indexing parse produces title = the first
underscore-separated segment with each '.' replaced by a space and trimmed,
year = the second segment converted to an integer when it consists only of
digits (0 otherwise), quality = the third segment ('Unknown' when there is
no third segment), and language = 'tamil', 'english', or 'hindi' when the
lowercased filename contains that word, tested in that order. -/
theorem parse_mkv_name_convention (t y q : List Char)
    (ht : '_' ∉ t) (hy : '_' ∉ y) (hq : '_' ∉ q)
    (h3 : containsSub mkvL (t ++ '_' :: (y ++ '_' :: q)) = false)
    (h2 : containsSub mkvL (t ++ '_' :: y) = false) :
    (parse_mkv_name ((t ++ '_' :: (y ++ '_' :: q)) ++ mkvL) =
      { title := pyStrip (t.map fun c => if c = '.' then ' ' else c)
        year := if pyIsDigit y then digitsToNat y else 0
        quality := q
        language :=
          if containsSub "tamil".data (lowerStr ((t ++ '_' :: (y ++ '_' :: q)) ++ mkvL)) then
            some "tamil".data
          else if containsSub "english".data (lowerStr ((t ++ '_' :: (y ++ '_' :: q)) ++ mkvL)) then
            some "english".data
          else if containsSub "hindi".data (lowerStr ((t ++ '_' :: (y ++ '_' :: q)) ++ mkvL)) then
            some "hindi".data
          else none }) ∧
    (parse_mkv_name ((t ++ '_' :: y) ++ mkvL)).quality = "Unknown".data := by
  constructor
  · have hrm := remove_mkv_of_not_contains _ h3
    have hsplit : split_underscore (t ++ '_' :: (y ++ '_' :: q)) = [t, y, q] := by
      rw [split_underscore_append t _ ht, split_underscore_append y q hy,
        split_underscore_no_underscore q hq]
    simp only [parse_mkv_name, detect_language]
    rw [hrm, hsplit]
    simp
  · have hrm := remove_mkv_of_not_contains _ h2
    have hsplit : split_underscore (t ++ '_' :: y) = [t, y] := by
      rw [split_underscore_append t y ht, split_underscore_no_underscore y hy]
    simp only [parse_mkv_name]
    rw [hrm, hsplit]
    simp

/-- Witness for C1 at the concrete filename `Dear.Comrade_2019_720p.Tamil.mkv`. -/
theorem parse_mkv_name_convention_witness :
    parse_mkv_name "Dear.Comrade_2019_720p.Tamil.mkv".data =
      { title := "Dear Comrade".data, year := 2019, quality := "720p.Tamil".data,
        language := some "tamil".data } := by
  have h := (parse_mkv_name_convention "Dear.Comrade".data "2019".data "720p.Tamil".data
    (by decide) (by decide) (by decide) (by decide) (by decide)).1
  have e : "Dear.Comrade_2019_720p.Tamil.mkv".data =
      ("Dear.Comrade".data ++ '_' :: ("2019".data ++ '_' :: "720p.Tamil".data)) ++ mkvL := by
    decide
  rw [e, h]
  decide

/-! ## C2: tokenization of the search query -/

theorem removeFirst_eraseP (p : List Char → Bool) (l : List (List Char)) (t : List Char)
    (h : l.find? p = some t) : removeFirst t l = l.eraseP p := by
  induction l with
  | nil => simp [List.find?] at h
  | cons y rest ih =>
    by_cases hy : p y
    · rw [List.find?_cons_of_pos rest hy] at h
      injection h with h
      subst h
      rw [List.eraseP_cons_of_pos hy]
      simp [removeFirst]
    · rw [List.find?_cons_of_neg rest hy] at h
      have ht : p t = true := List.find?_some h
      have hne : y ≠ t := fun e => hy (by rw [e]; exact ht)
      rw [List.eraseP_cons_of_neg hy]
      simp [removeFirst, hne, ih h]

theorem extract_year_spec (terms : List (List Char)) :
    extract_year terms = (spec_year terms, spec_after_year terms) := by
  unfold extract_year spec_year spec_after_year
  cases h : terms.find? is_year_term with
  | none =>
    simp [List.eraseP_of_forall_not (List.find?_eq_none.mp h)]
  | some t =>
    simp [removeFirst_eraseP _ _ _ h]

theorem removeFirst_append_of_not_mem (x : List Char) (pre rest : List (List Char))
    (hx : x ∉ pre) : removeFirst x (pre ++ x :: rest) = pre ++ rest := by
  induction pre with
  | nil => simp [removeFirst]
  | cons y p ih =>
    have hyx : y ≠ x := fun e => hx (e ▸ List.mem_cons_self y p)
    have hx' : x ∉ p := fun hm => hx (List.mem_cons_of_mem y hm)
    simp [removeFirst, hyx, ih hx']

theorem spec_language_cons_neg (t : List Char) (rest : List (List Char))
    (h : is_lang_term t = false) : spec_language (t :: rest) = spec_language rest := by
  rw [spec_language]
  cases spec_language rest <;> simp [h]

theorem spec_language_cons_pos (t : List Char) (rest : List (List Char))
    (h : is_lang_term t = true) :
    spec_language (t :: rest) = some ((spec_language rest).getD (lowerStr t)) := by
  rw [spec_language]
  cases spec_language rest <;> simp [h]

theorem extract_language_general (copy : List (List Char)) :
    ∀ pre : List (List Char), (∀ x ∈ pre, is_lang_term x = false) →
      extract_language copy (pre ++ copy) =
        (spec_language copy, pre ++ copy.filter fun t => !is_lang_term t) := by
  induction copy with
  | nil =>
    intro pre _
    simp [extract_language, spec_language]
  | cons t rest ih =>
    intro pre hpre
    by_cases hl : is_lang_term t
    · have htpre : t ∉ pre := fun hm => by
        have := hpre t hm
        rw [hl] at this
        exact Bool.true_eq_false.mp this
      rw [extract_language, if_pos hl,
        removeFirst_append_of_not_mem t pre rest htpre, ih pre hpre,
        spec_language_cons_pos t rest hl]
      simp [hl]
    · have hl' : is_lang_term t = false := Bool.not_eq_true _ |>.mp hl
      have step : pre ++ t :: rest = (pre ++ [t]) ++ rest := by simp
      rw [extract_language, if_neg hl, step,
        ih (pre ++ [t]) (by
          intro x hx
          rcases List.mem_append.mp hx with hm | hm
          · exact hpre x hm
          · rw [List.mem_singleton.mp hm]; exact hl'),
        spec_language_cons_neg t rest hl']
      simp [hl']

theorem extract_language_self (l : List (List Char)) :
    extract_language l l = (spec_language l, spec_remaining l) := by
  have := extract_language_general l [] (by intro x hx; cases hx)
  simpa [spec_remaining] using this

/-- C2: For every non-empty text search query, the search handler splits the
query on whitespace; the first term that is all digits and exactly 4
characters long is removed and used as the year filter, every term equal
case-insensitively to 'tamil', 'english', or 'hindi' is removed and (its
lowercase, last match winning) used as the language filter, the remaining
terms joined by single spaces form the movie-name filter passed to the store
query, and each returned record is rendered as one interactive button. -/
theorem search_movie_tokenization (st : MovieStore) (text : List Char)
    (h : pyStrip text ≠ []) :
    (search_movie st text =
      run_store_query st (pyStrip text)
        (joinSpace (spec_remaining (spec_after_year (pySplitWs (pyStrip text)))))
        (spec_year (pySplitWs (pyStrip text)))
        (spec_language (spec_after_year (pySplitWs (pyStrip text)))))
    ∧ ∀ movies : List MovieTup, movies ≠ [] →
        present_results st (pyStrip text)
            (spec_language (spec_after_year (pySplitWs (pyStrip text)))) movies =
          .results (mk_header (pyStrip text) movies.length)
            (movies.map (mk_result_line st
              (spec_language (spec_after_year (pySplitWs (pyStrip text))))))
            (movies.map (mk_button st
              (spec_language (spec_after_year (pySplitWs (pyStrip text)))))) := by
  constructor
  · rw [search_movie]
    rw [if_neg (by simpa using h)]
    simp only [extract_year_spec, extract_language_self]
  · intro movies hm
    rw [present_results, if_neg (by simpa using hm)]

/-- A one-record catalog used by concrete witnesses. -/
def exDoc : MovieDoc :=
  ⟨⟨"Mitra".data, 2025, "720p".data, "1.50GB".data, "10:77".data, 5,
    some "-100200300".data, some "tamil".data⟩, 0⟩

/-- The catalog store holding `exDoc`. -/
def exStore : MovieStore := ⟨[exDoc], 1⟩

/-- Witness for C2 at the concrete query `" Mitra tamil 2025 "`. -/
theorem search_movie_tokenization_witness :
    search_movie exStore " Mitra tamil 2025 ".data =
      run_store_query exStore "Mitra tamil 2025".data "Mitra".data
        (some 2025) (some "tamil".data) := by
  have h := (search_movie_tokenization exStore " Mitra tamil 2025 ".data (by decide)).1
  exact h.trans (by decide)

/-! ## C3: the MIME filter and the progress/final reports -/

/-- An insert that originates from message `m` of the channel. -/
def FromMsg (channel : List Char) (m : TLMessage) (ins : MovieInsert) : Prop :=
  ∃ dd, m.document = some dd ∧ isMkvMsg m = true ∧ ins = msg_insert channel m dd

theorem telethon_file_id_ne_nil (d : TLDoc) : (telethon_file_id d).isEmpty = false := by
  rw [telethon_file_id]
  cases h : intChars d.docId <;> simp

theorem add_movie_msg_ok (st : MovieStore) (channel : List Char) (m : TLMessage)
    (d : TLDoc) (ht : (parse_mkv_name d.file_name).title.isEmpty = false) :
    add_movie st (msg_insert channel m d).title (msg_insert channel m d).year
      (msg_insert channel m d).quality (msg_insert channel m d).file_size
      (msg_insert channel m d).file_id (msg_insert channel m d).message_id
      (parse_mkv_name d.file_name).language (some channel)
      = .ok (insertOne st (msg_insert channel m d)) := by
  unfold add_movie
  rw [show (msg_insert channel m d).file_id.isEmpty = false from telethon_file_id_ne_nil d,
    show (msg_insert channel m d).title.isEmpty = false from ht]
  rfl

theorem add_movie_msg_err (st : MovieStore) (channel : List Char) (m : TLMessage)
    (d : TLDoc) (ht : (parse_mkv_name d.file_name).title.isEmpty = true) :
    add_movie st (msg_insert channel m d).title (msg_insert channel m d).year
      (msg_insert channel m d).quality (msg_insert channel m d).file_size
      (msg_insert channel m d).file_id (msg_insert channel m d).message_id
      (parse_mkv_name d.file_name).language (some channel) = .error () := by
  unfold add_movie
  rw [show (msg_insert channel m d).title.isEmpty = true from ht]
  simp

theorem insertOne_dup (st : MovieStore) (ins : MovieInsert)
    (h : (st.docs.any fun dc =>
      dc.file_id == ins.file_id && dc.message_id == ins.message_id) = true) :
    insertOne st ins = (none, st) := by
  rw [insertOne, if_pos h]

theorem insertOne_new (st : MovieStore) (ins : MovieInsert)
    (h : (st.docs.any fun dc =>
      dc.file_id == ins.file_id && dc.message_id == ins.message_id) = false) :
    insertOne st ins = (some st.nextId, ⟨st.docs ++ [⟨ins, st.nextId⟩], st.nextId + 1⟩) := by
  rw [insertOne, if_neg (by rw [h]; exact Bool.false_ne_true)]

theorem single_step_spec (channel : List Char) (c : IndexCounters) (st : MovieStore)
    (m : TLMessage) :
    (single_step channel (c, st) m).1.current = c.current + 1
    ∧ (single_step channel (c, st) m).1.unsupported
        = c.unsupported + (if isMkvMsg m then 0 else 1)
    ∧ ∃ news, (single_step channel (c, st) m).2.docs = st.docs ++ news
        ∧ ∀ d ∈ news, FromMsg channel m d.toMovieInsert := by
  cases hdoc : m.document with
  | none =>
    have hmkv : isMkvMsg m = false := by rw [isMkvMsg, hdoc]
    simp only [single_step, hdoc]
    refine ⟨?_, ?_, [], ?_, ?_⟩ <;> first | rfl | (rw [hmkv]; rfl) | simp
  | some d =>
    have hmkv : isMkvMsg m = (d.mime_type == "video/x-matroska".data) := by
      rw [isMkvMsg, hdoc]
    simp only [single_step, hdoc]
    by_cases hmime : (d.mime_type == "video/x-matroska".data) = true
    · rw [if_pos hmime]
      have hmkv' : isMkvMsg m = true := by rw [hmkv]; exact hmime
      by_cases ht : (parse_mkv_name d.file_name).title.isEmpty = true
      · rw [add_movie_msg_err st channel m d ht]
        refine ⟨?_, ?_, [], ?_, ?_⟩ <;> first | rfl | (rw [hmkv']; rfl) | simp
      · have ht' : (parse_mkv_name d.file_name).title.isEmpty = false :=
          Bool.not_eq_true _ |>.mp ht
        rw [add_movie_msg_ok st channel m d ht']
        by_cases hdup : (st.docs.any fun dc =>
            dc.file_id == (msg_insert channel m d).file_id
              && dc.message_id == (msg_insert channel m d).message_id) = true
        · rw [insertOne_dup st _ hdup]
          refine ⟨?_, ?_, [], ?_, ?_⟩ <;> first | rfl | (rw [hmkv']; rfl) | simp
        · rw [insertOne_new st _ (Bool.not_eq_true _ |>.mp hdup)]
          refine ⟨?_, ?_, [⟨msg_insert channel m d, st.nextId⟩], ?_, ?_⟩
          · rfl
          · rw [hmkv']; rfl
          · rfl
          · intro x hx
            rw [List.mem_singleton.mp hx]
            exact ⟨d, hdoc, hmkv', rfl⟩
    · have hmime' := Bool.not_eq_true _ |>.mp hmime
      rw [if_neg (by rw [hmime']; exact Bool.false_ne_true)]
      have hmkv' : isMkvMsg m = false := by rw [hmkv]; exact hmime'
      refine ⟨?_, ?_, [], ?_, ?_⟩ <;> first | rfl | (rw [hmkv']; rfl) | simp

theorem single_fold_spec (channel : List Char) (msgs : List TLMessage) :
    ∀ (c : IndexCounters) (st : MovieStore),
      ((msgs.foldl (single_step channel) (c, st)).1.current = c.current + msgs.length)
      ∧ ((msgs.foldl (single_step channel) (c, st)).1.unsupported
          = c.unsupported + msgs.countP (fun m => !isMkvMsg m))
      ∧ ∃ news, (msgs.foldl (single_step channel) (c, st)).2.docs = st.docs ++ news
          ∧ ∀ d ∈ news, ∃ m ∈ msgs, FromMsg channel m d.toMovieInsert := by
  induction msgs with
  | nil => intro c st; simp
  | cons m rest ih =>
    intro c st
    obtain ⟨h1, h2, news1, hdocs1, hnews1⟩ := single_step_spec channel c st m
    obtain ⟨g1, g2, news2, gdocs2, gnews2⟩ :=
      ih (single_step channel (c, st) m).1 (single_step channel (c, st) m).2
    refine ⟨?_, ?_, news1 ++ news2, ?_, ?_⟩
    · rw [List.foldl_cons, g1, h1, List.length_cons]
      omega
    · rw [List.foldl_cons, g2, h2, List.countP_cons]
      cases hmkv : isMkvMsg m <;> simp [hmkv] <;> omega
    · rw [List.foldl_cons, gdocs2, hdocs1, List.append_assoc]
    · intro d hd
      rcases List.mem_append.mp hd with hmem | hmem
      · exact ⟨m, List.mem_cons_self m rest, hnews1 d hmem⟩
      · obtain ⟨m', hm', hfrom⟩ := gnews2 d hmem
        exact ⟨m', List.mem_cons_of_mem m hm', hfrom⟩

theorem add_movies_batch_go (batch : List MovieInsert) :
    ∀ acc : List Nat × MovieStore,
      ∃ news, (batch.foldl
          (fun acc ins =>
            match insertOne acc.2 ins with
            | (some i, st') => (acc.1 ++ [i], st')
            | (none, st') => (acc.1, st')) acc).2.docs = acc.2.docs ++ news
        ∧ ∀ d ∈ news, d.toMovieInsert ∈ batch := by
  induction batch with
  | nil => intro acc; exact ⟨[], by simp, by simp⟩
  | cons ins rest ih =>
    intro acc
    rw [List.foldl_cons]
    by_cases hd : (acc.2.docs.any fun dc =>
        dc.file_id == ins.file_id && dc.message_id == ins.message_id) = true
    · have hstep : (match insertOne acc.2 ins with
          | (some i, st') => (acc.1 ++ [i], st')
          | (none, st') => (acc.1, st')) = (acc.1, acc.2) := by
        rw [insertOne_dup _ _ hd]
      rw [hstep]
      obtain ⟨news, hn, hp⟩ := ih (acc.1, acc.2)
      exact ⟨news, hn, fun d hd2 => List.mem_cons_of_mem ins (hp d hd2)⟩
    · have hstep : (match insertOne acc.2 ins with
          | (some i, st') => (acc.1 ++ [i], st')
          | (none, st') => (acc.1, st'))
          = (acc.1 ++ [acc.2.nextId],
              ⟨acc.2.docs ++ [⟨ins, acc.2.nextId⟩], acc.2.nextId + 1⟩) := by
        rw [insertOne_new _ _ (Bool.not_eq_true _ |>.mp hd)]
      rw [hstep]
      obtain ⟨news, hn, hp⟩ := ih (acc.1 ++ [acc.2.nextId],
        ⟨acc.2.docs ++ [⟨ins, acc.2.nextId⟩], acc.2.nextId + 1⟩)
      refine ⟨⟨ins, acc.2.nextId⟩ :: news, ?_, ?_⟩
      · rw [hn]
        simp
      · intro d hd2
        rcases List.mem_cons.mp hd2 with hm | hm
        · rw [hm]; exact List.mem_cons_self ins rest
        · exact List.mem_cons_of_mem ins (hp d hm)

theorem add_movies_batch_docs (st : MovieStore) (batch : List MovieInsert) :
    ∃ news, (add_movies_batch st batch).2.docs = st.docs ++ news
      ∧ ∀ d ∈ news, d.toMovieInsert ∈ batch := by
  have h := add_movies_batch_go batch ([], st)
  simpa [add_movies_batch] using h

theorem flush_batch_spec (s : BatchSt) :
    (flush_batch s).counters.current = s.counters.current
    ∧ (flush_batch s).counters.unsupported = s.counters.unsupported
    ∧ (flush_batch s).buffer = []
    ∧ ∃ news, (flush_batch s).store.docs = s.store.docs ++ news
        ∧ ∀ d ∈ news, d.toMovieInsert ∈ s.buffer := by
  obtain ⟨news, hn, hp⟩ := add_movies_batch_docs s.store s.buffer
  exact ⟨rfl, rfl, rfl, news, hn, hp⟩

theorem batch_step_spec (channel : List Char) (s : BatchSt) (m : TLMessage) :
    (batch_step channel s m).counters.current = s.counters.current + 1
    ∧ (batch_step channel s m).counters.unsupported
        = s.counters.unsupported + (if isMkvMsg m then 0 else 1)
    ∧ (∀ i ∈ (batch_step channel s m).buffer, i ∈ s.buffer ∨ FromMsg channel m i)
    ∧ ∃ news, (batch_step channel s m).store.docs = s.store.docs ++ news
        ∧ ∀ d ∈ news, d.toMovieInsert ∈ s.buffer ∨ FromMsg channel m d.toMovieInsert := by
  cases hdoc : m.document with
  | none =>
    have hmkv : isMkvMsg m = false := by rw [isMkvMsg, hdoc]
    have hstep : batch_step channel s m = batch_skip_state s := by
      unfold batch_step; rw [hdoc]
    rw [hstep, hmkv]
    exact ⟨rfl, rfl, fun i hi => Or.inl hi, [], by simp [batch_skip_state], by simp⟩
  | some d =>
    have hmkv : isMkvMsg m = (d.mime_type == "video/x-matroska".data) := by
      rw [isMkvMsg, hdoc]
    by_cases hmime : (d.mime_type == "video/x-matroska".data) = true
    · have hmkv2 : isMkvMsg m = true := by rw [hmkv]; exact hmime
      have hbuf : ∀ i ∈ (batch_mkv_state channel s m d).buffer,
          i ∈ s.buffer ∨ FromMsg channel m i := by
        intro i hi
        rcases List.mem_append.mp hi with hm | hm
        · exact Or.inl hm
        · exact Or.inr ⟨d, hdoc, hmkv2, List.mem_singleton.mp hm⟩
      by_cases hlen : (batch_mkv_state channel s m d).buffer.length ≥ 100
      · have hstep : batch_step channel s m = flush_batch (batch_mkv_state channel s m d) := by
          unfold batch_step; rw [hdoc]
          show (if (d.mime_type == "video/x-matroska".data) = true then
              if (batch_mkv_state channel s m d).buffer.length ≥ 100 then
                flush_batch (batch_mkv_state channel s m d)
              else batch_mkv_state channel s m d
            else batch_skip_state s) = _
          rw [if_pos hmime, if_pos hlen]
        obtain ⟨f1, f2, f3, news, fn, fp⟩ := flush_batch_spec (batch_mkv_state channel s m d)
        rw [hstep, hmkv2]
        refine ⟨by rw [f1]; rfl, by rw [f2]; rfl, ?_, news, by rw [fn]; rfl, ?_⟩
        · rw [f3]; intro i hi; cases hi
        · intro dd hdd
          exact hbuf dd.toMovieInsert (fp dd hdd)
      · have hstep : batch_step channel s m = batch_mkv_state channel s m d := by
          unfold batch_step; rw [hdoc]
          show (if (d.mime_type == "video/x-matroska".data) = true then
              if (batch_mkv_state channel s m d).buffer.length ≥ 100 then
                flush_batch (batch_mkv_state channel s m d)
              else batch_mkv_state channel s m d
            else batch_skip_state s) = _
          rw [if_pos hmime, if_neg hlen]
        rw [hstep, hmkv2]
        exact ⟨rfl, rfl, hbuf, [], by simp [batch_mkv_state], by simp⟩
    · have hmime2 := Bool.not_eq_true _ |>.mp hmime
      have hmkv2 : isMkvMsg m = false := by rw [hmkv]; exact hmime2
      have hstep : batch_step channel s m = batch_skip_state s := by
        unfold batch_step; rw [hdoc]
        show (if (d.mime_type == "video/x-matroska".data) = true then
            if (batch_mkv_state channel s m d).buffer.length ≥ 100 then
              flush_batch (batch_mkv_state channel s m d)
            else batch_mkv_state channel s m d
          else batch_skip_state s) = _
        rw [if_neg (by rw [hmime2]; exact Bool.false_ne_true)]
      rw [hstep, hmkv2]
      exact ⟨rfl, rfl, fun i hi => Or.inl hi, [], by simp [batch_skip_state], by simp⟩

theorem batch_fold_spec (channel : List Char) (msgs : List TLMessage) :
    ∀ s : BatchSt,
      ((msgs.foldl (batch_step channel) s).counters.current
          = s.counters.current + msgs.length)
      ∧ ((msgs.foldl (batch_step channel) s).counters.unsupported
          = s.counters.unsupported + msgs.countP (fun m => !isMkvMsg m))
      ∧ (∀ i ∈ (msgs.foldl (batch_step channel) s).buffer,
          i ∈ s.buffer ∨ ∃ m ∈ msgs, FromMsg channel m i)
      ∧ ∃ news, (msgs.foldl (batch_step channel) s).store.docs = s.store.docs ++ news
          ∧ ∀ d ∈ news, d.toMovieInsert ∈ s.buffer
              ∨ ∃ m ∈ msgs, FromMsg channel m d.toMovieInsert := by
  induction msgs with
  | nil =>
    intro s
    exact ⟨by simp, by simp, fun i hi => Or.inl hi, [], by simp, by simp⟩
  | cons m rest ih =>
    intro s
    obtain ⟨h1, h2, h3, news1, hdocs1, hnews1⟩ := batch_step_spec channel s m
    obtain ⟨g1, g2, g3, news2, gdocs2, gnews2⟩ := ih (batch_step channel s m)
    rw [List.foldl_cons]
    refine ⟨?_, ?_, ?_, news1 ++ news2, ?_, ?_⟩
    · rw [g1, h1, List.length_cons]; omega
    · rw [g2, h2, List.countP_cons]
      cases hmkv : isMkvMsg m <;> simp [hmkv] <;> omega
    · intro i hi
      rcases g3 i hi with hm | ⟨m', hm', hfrom⟩
      · rcases h3 i hm with hm2 | hfrom
        · exact Or.inl hm2
        · exact Or.inr ⟨m, List.mem_cons_self m rest, hfrom⟩
      · exact Or.inr ⟨m', List.mem_cons_of_mem m hm', hfrom⟩
    · rw [gdocs2, hdocs1, List.append_assoc]
    · intro d hd
      rcases List.mem_append.mp hd with hmem | hmem
      · rcases hnews1 d hmem with hm | hfrom
        · exact Or.inl hm
        · exact Or.inr ⟨m, List.mem_cons_self m rest, hfrom⟩
      · rcases gnews2 d hmem with hm | ⟨m', hm', hfrom⟩
        · rcases h3 d.toMovieInsert hm with hm2 | hfrom
          · exact Or.inl hm2
          · exact Or.inr ⟨m, List.mem_cons_self m rest, hfrom⟩
        · exact Or.inr ⟨m', List.mem_cons_of_mem m hm', hfrom⟩

theorem batch_final_spec (s : BatchSt) :
    (batch_final s).counters.current = s.counters.current
    ∧ (batch_final s).counters.unsupported = s.counters.unsupported
    ∧ ∃ news, (batch_final s).store.docs = s.store.docs ++ news
        ∧ ∀ d ∈ news, d.toMovieInsert ∈ s.buffer := by
  unfold batch_final
  by_cases h : s.buffer.isEmpty = true
  · rw [if_pos h]
    exact ⟨rfl, rfl, [], by simp, by simp⟩
  · rw [if_neg h]
    obtain ⟨f1, f2, _, news, fn, fp⟩ := flush_batch_spec s
    exact ⟨f1, f2, news, fn, fp⟩

theorem batch_index_spec (channel : List Char) (msgs : List TLMessage) (st : MovieStore) :
    (batch_index channel msgs st).1.current = msgs.length
    ∧ (batch_index channel msgs st).1.unsupported
        = msgs.countP (fun m => !isMkvMsg m)
    ∧ ∃ news, (batch_index channel msgs st).2.docs = st.docs ++ news
        ∧ ∀ d ∈ news, ∃ m ∈ msgs, FromMsg channel m d.toMovieInsert := by
  obtain ⟨h1, h2, h3, news1, hdocs1, hnews1⟩ :=
    batch_fold_spec channel msgs ⟨⟨0, 0, 0, 0, 0⟩, [], st⟩
  obtain ⟨f1, f2, news2, fdocs2, fnews2⟩ :=
    batch_final_spec (msgs.foldl (batch_step channel) ⟨⟨0, 0, 0, 0, 0⟩, [], st⟩)
  have hget : ∀ i ∈ (msgs.foldl (batch_step channel) ⟨⟨0, 0, 0, 0, 0⟩, [], st⟩).buffer,
      ∃ m ∈ msgs, FromMsg channel m i := by
    intro i hi
    rcases h3 i hi with hm | hex
    · cases hm
    · exact hex
  refine ⟨?_, ?_, news1 ++ news2, ?_, ?_⟩
  · show (batch_final _).counters.current = _
    rw [f1, h1]
    simp
  · show (batch_final _).counters.unsupported = _
    rw [f2, h2]
    simp
  · show (batch_final _).store.docs = _
    rw [fdocs2, hdocs1, List.append_assoc]
  · intro d hd
    rcases List.mem_append.mp hd with hmem | hmem
    · rcases hnews1 d hmem with hm | hex
      · cases hm
      · exact hex
    · exact hget d.toMovieInsert (fnews2 d hmem)

theorem containsSub_append_left (pat u v : List Char) (h : containsSub pat v = true) :
    containsSub pat (u ++ v) = true := by
  obtain ⟨a, b, hab, hp⟩ := (containsSub_iff pat v).mp h
  exact (containsSub_iff pat (u ++ v)).mpr ⟨u ++ a, b, by rw [hab, List.append_assoc], hp⟩

theorem containsSub_append_right (pat u v : List Char) (h : containsSub pat u = true) :
    containsSub pat (u ++ v) = true := by
  obtain ⟨a, b, hab, hp⟩ := (containsSub_iff pat u).mp h
  refine (containsSub_iff pat (u ++ v)).mpr ⟨a, b ++ v, by rw [hab, List.append_assoc], ?_⟩
  exact List.isPrefixOf_iff_prefix.mpr
    ((List.isPrefixOf_iff_prefix.mp hp).trans (List.prefix_append b v))

theorem containsSub_self (pat : List Char) : containsSub pat pat = true :=
  (containsSub_iff pat pat).mpr
    ⟨[], pat, rfl, List.isPrefixOf_iff_prefix.mpr (List.prefix_refl pat)⟩

theorem final_report_counts (mode ch : List Char) (c : IndexCounters) :
    containsSub (natChars c.current) (final_report mode ch c) = true
    ∧ containsSub (natChars c.total_files) (final_report mode ch c) = true
    ∧ containsSub (natChars c.duplicate) (final_report mode ch c) = true
    ∧ containsSub (natChars c.unsupported) (final_report mode ch c) = true := by
  unfold final_report
  refine ⟨?_, ?_, ?_, ?_⟩
  · iterate 8 apply containsSub_append_right
    apply containsSub_append_left
    exact containsSub_self _
  · iterate 6 apply containsSub_append_right
    apply containsSub_append_left
    exact containsSub_self _
  · iterate 4 apply containsSub_append_right
    apply containsSub_append_left
    exact containsSub_self _
  · iterate 2 apply containsSub_append_right
    apply containsSub_append_left
    exact containsSub_self _

theorem batch_progress_report_counts (n : Nat) (c : IndexCounters) :
    containsSub (natChars c.current) (batch_progress_report n c) = true
    ∧ containsSub (natChars c.total_files) (batch_progress_report n c) = true
    ∧ containsSub (natChars c.duplicate) (batch_progress_report n c) = true
    ∧ containsSub (natChars c.unsupported) (batch_progress_report n c) = true := by
  unfold batch_progress_report
  refine ⟨?_, ?_, ?_, ?_⟩
  · iterate 6 apply containsSub_append_right
    apply containsSub_append_left
    exact containsSub_self _
  · iterate 4 apply containsSub_append_right
    apply containsSub_append_left
    exact containsSub_self _
  · iterate 2 apply containsSub_append_right
    apply containsSub_append_left
    exact containsSub_self _
  · apply containsSub_append_left
    exact containsSub_self _

theorem single_progress_report_counts (c : IndexCounters) :
    containsSub (natChars c.current) (single_progress_report c) = true
    ∧ containsSub (natChars c.total_files) (single_progress_report c) = true
    ∧ containsSub (natChars c.duplicate) (single_progress_report c) = true
    ∧ containsSub (natChars c.unsupported) (single_progress_report c) = true := by
  unfold single_progress_report
  refine ⟨?_, ?_, ?_, ?_⟩
  · iterate 6 apply containsSub_append_right
    apply containsSub_append_left
    exact containsSub_self _
  · iterate 4 apply containsSub_append_right
    apply containsSub_append_left
    exact containsSub_self _
  · iterate 2 apply containsSub_append_right
    apply containsSub_append_left
    exact containsSub_self _
  · apply containsSub_append_left
    exact containsSub_self _

/-- C3: During indexing (both single-pass and batch mode), a channel message
is inserted into the catalog only if it carries a document whose MIME type is
exactly 'video/x-matroska'; every other message is skipped and counted as
unsupported, and the progress/final reports state the counts of messages
processed, movies indexed, duplicates skipped, and unsupported files. -/
theorem indexing_mime_filter_and_reports (channel : List Char)
    (msgs : List TLMessage) (st : MovieStore) :
    ((single_index channel msgs st).1.current = msgs.length
      ∧ (single_index channel msgs st).1.unsupported
          = msgs.countP (fun m => !isMkvMsg m)
      ∧ ∃ news, (single_index channel msgs st).2.docs = st.docs ++ news
          ∧ ∀ d ∈ news, ∃ m ∈ msgs, FromMsg channel m d.toMovieInsert)
    ∧ ((batch_index channel msgs st).1.current = msgs.length
      ∧ (batch_index channel msgs st).1.unsupported
          = msgs.countP (fun m => !isMkvMsg m)
      ∧ ∃ news, (batch_index channel msgs st).2.docs = st.docs ++ news
          ∧ ∀ d ∈ news, ∃ m ∈ msgs, FromMsg channel m d.toMovieInsert)
    ∧ (∀ (mode ch : List Char) (c : IndexCounters),
        containsSub (natChars c.current) (final_report mode ch c) = true
        ∧ containsSub (natChars c.total_files) (final_report mode ch c) = true
        ∧ containsSub (natChars c.duplicate) (final_report mode ch c) = true
        ∧ containsSub (natChars c.unsupported) (final_report mode ch c) = true)
    ∧ (∀ (n : Nat) (c : IndexCounters),
        containsSub (natChars c.current) (batch_progress_report n c) = true
        ∧ containsSub (natChars c.total_files) (batch_progress_report n c) = true
        ∧ containsSub (natChars c.duplicate) (batch_progress_report n c) = true
        ∧ containsSub (natChars c.unsupported) (batch_progress_report n c) = true)
    ∧ (∀ c : IndexCounters,
        containsSub (natChars c.current) (single_progress_report c) = true
        ∧ containsSub (natChars c.total_files) (single_progress_report c) = true
        ∧ containsSub (natChars c.duplicate) (single_progress_report c) = true
        ∧ containsSub (natChars c.unsupported) (single_progress_report c) = true) := by
  obtain ⟨h1, h2, news, hd, hp⟩ := single_fold_spec channel msgs ⟨0, 0, 0, 0, 0⟩ st
  refine ⟨⟨?_, ?_, news, hd, hp⟩, batch_index_spec channel msgs st,
    final_report_counts, batch_progress_report_counts, single_progress_report_counts⟩
  · show (msgs.foldl (single_step channel) (⟨0, 0, 0, 0, 0⟩, st)).1.current = _
    rw [h1]
    simp
  · show (msgs.foldl (single_step channel) (⟨0, 0, 0, 0, 0⟩, st)).1.unsupported = _
    rw [h2]
    simp

/-- An MKV channel message for witnesses. -/
def exTLDoc : TLDoc :=
  ⟨"video/x-matroska".data, "Mitra_2025_720p.mkv".data, 10, 77, 52428800⟩

/-- A channel message carrying `exTLDoc`. -/
def exMsgA : TLMessage := ⟨5, some exTLDoc⟩

/-- A channel message with no document. -/
def exMsgB : TLMessage := ⟨6, none⟩

/-- Witness for C3 on a two-message channel: one MKV message and one
document-less message, so one message is counted unsupported in both modes
and the single insert parses to `Mitra`. -/
theorem indexing_mime_filter_witness :
    (single_index "-100200300".data [exMsgA, exMsgB] ⟨[], 0⟩).1.unsupported = 1
    ∧ (batch_index "-100200300".data [exMsgA, exMsgB] ⟨[], 0⟩).1.unsupported = 1
    ∧ (single_index "-100200300".data [exMsgA, exMsgB] ⟨[], 0⟩).1.current = 2 := by
  obtain ⟨hs, hb, -, -, -⟩ :=
    indexing_mime_filter_and_reports "-100200300".data [exMsgA, exMsgB] ⟨[], 0⟩
  exact ⟨hs.2.1.trans (by decide), hb.2.1.trans (by decide), hs.1.trans (by decide)⟩

/-! ## C5: the admin gate of the forwarded-message handler -/

/-- C5: Indexing of a forwarded channel message proceeds only when both the
bot and the requesting user are administrators of the forwarded channel; if
either is not an administrator, the handler replies with a refusal message
and no catalog record is inserted. -/
theorem handle_forwarded_admin_gate (env : ForwardEnv) (st : MovieStore)
    (mode ch : List Char)
    (h1 : env.is_cancel = false) (h2 : env.indexing = true)
    (h3 : env.index_mode = some mode) (h4 : env.forward_date = true)
    (h5 : resolve_channel env = some ch)
    (h6 : "-100".data.isPrefixOf ch = true)
    (h7 : env.admins.contains env.bot_id = false
        ∨ (env.admins.contains env.bot_id = true
            ∧ env.admins.contains env.chat_id = false)) :
    (handle_forwarded_message env st).2 = st
    ∧ ((handle_forwarded_message env st).1 = .bot_not_admin
        ∨ (handle_forwarded_message env st).1 = .user_not_admin) := by
  rcases h7 with hb | ⟨hb, hu⟩
  · have hh : handle_forwarded_message env st = (.bot_not_admin, st) := by
      simp only [handle_forwarded_message, h1, h2, h3, h4, h5, h6, hb]
      simp
    rw [hh]
    exact ⟨rfl, Or.inl rfl⟩
  · have hh : handle_forwarded_message env st = (.user_not_admin, st) := by
      simp only [handle_forwarded_message, h1, h2, h3, h4, h5, h6, hb, hu]
      simp
    rw [hh]
    exact ⟨rfl, Or.inr rfl⟩

/-- A forwarded-message environment whose bot is not among the channel's
administrators. -/
def exEnv5 : ForwardEnv :=
  ⟨777, false, true, some "single".data, [], true, some (-1002003004, true),
    777, [555], 999, true, [exMsgA]⟩

/-- Witness for C5: the bot (id 999) is not an admin of the forwarded
channel, so the handler refuses and the store is untouched. -/
theorem handle_forwarded_admin_gate_witness :
    (handle_forwarded_message exEnv5 exStore).2 = exStore
    ∧ ((handle_forwarded_message exEnv5 exStore).1 = .bot_not_admin
        ∨ (handle_forwarded_message exEnv5 exStore).1 = .user_not_admin) :=
  handle_forwarded_admin_gate exEnv5 exStore "single".data "-1002003004".data
    rfl rfl rfl rfl (by decide) (by decide) (Or.inl (by decide))

/-! ## C4 and C6: file delivery -/

/-- C4: File delivery fetches the file by its file identifier from the bot
API; when that download fails because the file is too big, it falls back to
the secondary (Telethon) client, which re-downloads the media using the
catalog record's channel_id and message_id, then attaches the thumbnail and
sends the document to the requesting chat. -/
theorem process_file_telethon_fallback :
    (∀ env : PFEnv, env.attempts 0 = .ok →
      process_file env =
        .sent env.chat_id .botApi
          (caption_text (get_user_settings env.users env.chat_id).1.2.1
            (get_user_settings env.users env.chat_id).1.2.2 env.title env.quality)
          (match (get_user_settings env.users env.chat_id).1.1 with
            | some tid => !tid.isEmpty && env.thumb_ok
            | none => false)
          env.reply_to)
    ∧ (∀ (env : PFEnv) (mov : MovieDoc) (ch : List Char),
        (∀ i, i < 3 → env.attempts i = .tooBig) →
        env.telethon_available = true →
        get_movie_by_id env.store env.movie_id = some mov →
        mov.channel_id = some ch → ch ≠ [] → mov.message_id ≠ 0 →
        env.telethon_ok ch mov.message_id = true →
        process_file env =
          .sent env.chat_id (.telethon ch mov.message_id)
            (caption_text (get_user_settings env.users env.chat_id).1.2.1
              (get_user_settings env.users env.chat_id).1.2.2 env.title env.quality)
            (match (get_user_settings env.users env.chat_id).1.1 with
              | some tid => !tid.isEmpty && env.thumb_ok
              | none => false)
            env.reply_to) := by
  constructor
  · intro env hok
    have hloop : bot_download_loop env.attempts 3 0 = .gotFile := by
      rw [bot_download_loop, hok]
    simp only [process_file, hloop]
  · intro env mov ch hA hT hM hC hCne hMid hF
    have hloop : bot_download_loop env.attempts 3 0 = .fellThrough := by
      simp [bot_download_loop, hA 0 (by omega), hA 1 (by omega), hA 2 (by omega)]
    have hchne : ch.isEmpty = false := by
      cases ch with
      | nil => exact absurd rfl hCne
      | cons a b => rfl
    simp only [process_file, hloop, hT, hM, hC, if_true]
    rw [hchne]
    rw [if_neg (by exact Bool.false_ne_true), if_neg hMid, if_pos hF]

/-- Delivery environment whose Bot-API attempts all fail with "File is too
big" and whose Telethon client is configured; the catalog holds `exDoc`. -/
def exPF4 : PFEnv :=
  ⟨[], exStore, 42, "10:77".data, "Mitra".data, "720p".data, "1.50GB".data, 99, 0,
    fun _ => .tooBig, true, fun _ _ => true, false⟩

/-- Witness for C4: with every Bot-API attempt failing as too big, the file
is re-downloaded through Telethon at `exDoc`'s channel and message id and
sent to chat 42. -/
theorem process_file_telethon_fallback_witness :
    process_file exPF4 = .sent 42 (.telethon "-100200300".data 5) "Mitra [720p]".data false 99 := by
  have h := process_file_telethon_fallback.2 exPF4 exDoc "-100200300".data
    (fun i _ => rfl) rfl (by decide) (by decide) (by decide) (by decide) rfl
  exact h.trans (by decide)

/-- C6: When delivering a file, the user's stored preference record is
applied: the caption is the stored caption when one is set, otherwise the
stored prefix (or empty string) followed by the title and the quality in
brackets, trimmed; and the stored thumbnail, when set, is downloaded,
optimized (`fix_thumb`) and attached to the sent document. -/
theorem process_file_user_preferences (env : PFEnv)
    (thumb pfx cap : Option (List Char))
    (hset : (get_user_settings env.users env.chat_id).1 = (thumb, pfx, cap))
    (hok : env.attempts 0 = .ok) :
    process_file env =
      .sent env.chat_id .botApi
        (pyOrStr cap
          (pyStrip ((pfx.getD []) ++ ' ' :: env.title ++ " [".data ++ env.quality ++ "]".data)))
        (!(thumb.getD []).isEmpty && env.thumb_ok)
        env.reply_to := by
  have h := process_file_telethon_fallback.1 env hok
  have e1 : (get_user_settings env.users env.chat_id).1.1 = thumb := by rw [hset]
  have e2 : (get_user_settings env.users env.chat_id).1.2.1 = pfx := by rw [hset]
  have e3 : (get_user_settings env.users env.chat_id).1.2.2 = cap := by rw [hset]
  rw [h, e1, e2, e3]
  cases thumb <;> rfl

/-- Users collection for the C6 witness: chat 42 stores a thumbnail and the
prefix `Pre_`, but no caption. -/
def exUsers : List UserRec := [⟨42, some "T1".data, some "Pre_".data, none⟩]

/-- Delivery environment for the C6 witness: Bot-API download succeeds and
the thumbnail download succeeds. -/
def exPF6 : PFEnv :=
  ⟨exUsers, exStore, 42, "10:77".data, "Mitra".data, "720p".data, "1.50GB".data, 99, 0,
    fun _ => .ok, false, fun _ _ => false, true⟩

/-- Witness for C6: the default caption is built from the stored prefix and
the optimized stored thumbnail is attached. -/
theorem process_file_user_preferences_witness :
    process_file exPF6 = .sent 42 .botApi "Pre_ Mitra [720p]".data true 99 := by
  have h := process_file_user_preferences exPF6 (some "T1".data) (some "Pre_".data) none
    (by decide) rfl
  exact h.trans (by decide)

/-! ## C7: the persistence backend -/

/-- C7 counterexample: neither start-up outcome of the database module ever
serves persistence from a relational store — the claim's relational fallback
does not exist in the code. -/
theorem database_startup_no_relational :
    database_startup .connected ≠ .ok .relational
    ∧ database_startup .pymongo_error ≠ .ok .relational := by
  decide

/-- C7 amended: the persistence layer wraps the document database only; a
successful connection serves MongoDB collections and a connection failure
re-raises instead of falling back to any relational store. -/
theorem database_startup_document_only :
    database_startup .connected = .ok .document_db
    ∧ database_startup .pymongo_error = .raised
    ∧ (∀ c, database_startup c ≠ .ok .relational) := by
  refine ⟨rfl, rfl, ?_⟩
  intro c
  cases c <;> simp [database_startup]

/-! ## C8 and C9: the store query -/

/-- C8: when a (truthy) year filter is given and the store query with that
year matches no record, `search_movies` re-runs the same query without the
year condition and returns those results. -/
theorem search_movies_year_fallback (st : MovieStore) (movie_name : List Char)
    (y : Nat) (language : Option (List Char))
    (hname : movie_name ≠ []) (hy : y ≠ 0)
    (hempty : st.docs.filter (match_query movie_name (some y) (lang_filter language)) = []) :
    search_movies st movie_name (some y) language
      = .ok (find_tuples st movie_name none (lang_filter language)) := by
  have hzero : year_filter (some y) = some y := by
    rw [year_filter, if_neg hy]
  have hne : movie_name.isEmpty = false := List.isEmpty_eq_false.mpr hname
  have hprim : find_tuples st movie_name (some y) (lang_filter language) = [] := by
    rw [find_tuples, hempty]
    rfl
  simp [search_movies, hne, hzero, hprim]

/-- Catalog record for the C8 witness: stored year 1999. -/
def exDoc8 : MovieDoc :=
  ⟨⟨"Mitra".data, 1999, "720p".data, "700.00MB".data, "11:88".data, 9,
    some "-100200300".data, none⟩, 0⟩

/-- Store holding only `exDoc8`. -/
def exStore8 : MovieStore := ⟨[exDoc8], 1⟩

/-- Witness for C8: a search for `Mitra` with year 2025 matches nothing, so
the fallback returns the 1999 record — a stored year different from the
requested one. -/
theorem search_movies_year_fallback_witness :
    search_movies exStore8 "Mitra".data (some 2025) none = .ok [doc_tuple exDoc8]
    ∧ (doc_tuple exDoc8).year = 1999 ∧ (1999 : Nat) ≠ 2025 := by
  refine ⟨?_, by decide, by decide⟩
  have h := search_movies_year_fallback exStore8 "Mitra".data 2025 none
    (by decide) (by decide) (by decide)
  exact h.trans (congrArg Except.ok (by decide))

/-- C9: every `search_movies` result list has at most 50 records, both from
the primary query and from the year-dropping fallback. -/
theorem search_movies_limit (st : MovieStore) (movie_name : List Char)
    (year : Option Nat) (language : Option (List Char)) (ms : List MovieTup)
    (h : search_movies st movie_name year language = .ok ms) :
    ms.length ≤ 50 := by
  have hlen : ∀ yf, (find_tuples st movie_name yf (lang_filter language)).length ≤ 50 := by
    intro yf
    rw [find_tuples, List.length_map, List.length_take]
    omega
  rw [search_movies] at h
  by_cases he : movie_name.isEmpty = true
  · rw [if_pos he] at h
    cases h
  · rw [if_neg he] at h
    simp only at h
    by_cases hc : ((find_tuples st movie_name (year_filter year) (lang_filter language)).isEmpty
        && (year_filter year).isSome) = true
    · rw [if_pos hc] at h
      injection h with h
      rw [← h]
      exact hlen none
    · rw [if_neg hc] at h
      injection h with h
      rw [← h]
      exact hlen (year_filter year)

/-- Witness for C9 at the concrete one-record store. -/
theorem search_movies_limit_witness : [doc_tuple exDoc].length ≤ 50 :=
  search_movies_limit exStore "Mitra".data none none [doc_tuple exDoc] rfl

/-! ## C10: user upsert semantics -/

theorem find_user_append_default (users : List UserRec) (cid : Int)
    (h : find_user users cid = none) :
    find_user (users ++ [defaultUser cid]) cid = some (defaultUser cid) := by
  induction users with
  | nil => simp [find_user, defaultUser]
  | cons u rest ih =>
    by_cases hc : (u.chat_id == cid) = true
    · rw [find_user, List.find?_cons_of_pos rest hc] at h
      cases h
    · have h2 : find_user rest cid = none := by
        rw [find_user] at h
        rw [List.find?_cons_of_neg rest hc] at h
        exact h
      show find_user ((u :: rest) ++ [defaultUser cid]) cid = _
      rw [find_user, List.cons_append,
        @List.find?_cons_of_neg _ (fun v => v.chat_id == cid) u (rest ++ [defaultUser cid]) hc]
      exact ih h2

/-- C10: `add_user` writes defaults only at first insertion, so an existing
record's thumbnail, prefix and caption are untouched and repeated calls are
idempotent; `get_user_settings` for an unknown chat_id creates the default
record and returns `(None, None, None)`. -/
theorem add_user_setOnInsert :
    (∀ (users : List UserRec) (cid : Int) (u : UserRec),
      find_user users cid = some u → add_user users cid = users)
    ∧ (∀ (users : List UserRec) (cid : Int),
      add_user (add_user users cid) cid = add_user users cid)
    ∧ (∀ (users : List UserRec) (cid : Int),
      find_user users cid = none →
        get_user_settings users cid = ((none, none, none), users ++ [defaultUser cid])
        ∧ find_user (add_user users cid) cid = some (defaultUser cid)) := by
  have hsome : ∀ (users : List UserRec) (cid : Int) (u : UserRec),
      find_user users cid = some u → add_user users cid = users := by
    intro users cid u h
    rw [add_user, h]
  have hnone : ∀ (users : List UserRec) (cid : Int),
      find_user users cid = none → add_user users cid = users ++ [defaultUser cid] := by
    intro users cid h
    rw [add_user, h]
  refine ⟨hsome, ?_, ?_⟩
  · intro users cid
    cases h : find_user users cid with
    | some u =>
      rw [hsome users cid u h, hsome users cid u h]
    | none =>
      rw [hnone users cid h]
      exact hsome _ cid (defaultUser cid) (find_user_append_default users cid h)
  · intro users cid h
    constructor
    · rw [get_user_settings, h, hnone users cid h]
    · rw [hnone users cid h]
      exact find_user_append_default users cid h

/-- Witness for C10 at the empty users collection and chat id 7. -/
theorem add_user_setOnInsert_witness :
    get_user_settings [] 7 = ((none, none, none), [defaultUser 7])
    ∧ add_user (add_user [] 7) 7 = add_user [] 7 := by
  obtain ⟨-, h2, h3⟩ := add_user_setOnInsert
  refine ⟨?_, h2 [] 7⟩
  have := (h3 [] 7 rfl).1
  simpa using this

end MoviesBot
